import Mathlib

/-!
Shallow embedding of `src/asgi_bench/spec.py` from the repository
`JacobCoffee/api-performance-tests`: the static endpoint catalog
(`TEST_CATEGORIES`) and the configuration-expansion function `make_spec`,
together with theorems settling the specification's claims about them.

Python `int | None` values are modelled as `Option Int`; string enumerations
(`Framework`, `EndpointMode`, `EndpointCategory`, `BenchmarkMode`) are
modelled as `String`, since the code only ever compares them as strings.
The filesystem directory listing consumed by `make_spec` is passed in
explicitly as a list of entries (name plus an is-file flag), preserving
iteration order.
-/

namespace AsgiBench

/-- `Endpoint` dataclass: path fragment, display name, excluded frameworks,
extra headers (spec.py lines 16-21). -/
structure Endpoint where
  path : String
  name : String
  exclude : List String := []
  headers : List (String × String) := []
deriving Repr, DecidableEq

/-- `TestCategory` dataclass: category name, its endpoints, and the default
framework support tuple (spec.py lines 24-28). -/
structure TestCategory where
  name : String
  endpoints : List Endpoint
  frameworks : List String := ["starlite", "starlette", "fastapi", "sanic", "blacksheep"]
deriving Repr, DecidableEq

/-- The static catalog `TEST_CATEGORIES` (spec.py lines 31-104), transcribed
category by category and endpoint by endpoint. -/
def TEST_CATEGORIES : List TestCategory := [
  { name := "plaintext",
    endpoints := [
      { path := "plaintext-100B", name := "plaintext 100 bytes" },
      { path := "plaintext-1K", name := "plaintext 1 kB" },
      { path := "plaintext-10K", name := "plaintext 10 kB" },
      { path := "plaintext-100K", name := "plaintext 100 kB" },
      { path := "plaintext-500K", name := "plaintext 500 kB" },
      { path := "plaintext-1M", name := "plaintext 1 MB" },
      { path := "plaintext-5M", name := "plaintext 5 MB" }] },
  { name := "json",
    endpoints := [
      { path := "json-1K", name := "json 1 kB" },
      { path := "json-10K", name := "json 10 kB" },
      { path := "json-100K", name := "json 100 kB" },
      { path := "json-500K", name := "json 500 kB" },
      { path := "json-1M", name := "json 1 MB" },
      { path := "json-5M", name := "json 5 MB" }] },
  { name := "files",
    endpoints := [
      { path := "file-response-100B", name := "file response 100 bytes" },
      { path := "file-response-1K", name := "file response 1 kB" },
      { path := "file-response-10K", name := "file response 10 kB" },
      { path := "file-response-100K", name := "file response 100 kB" },
      { path := "file-response-500K", name := "file response 500 kB" },
      { path := "file-response-1M", name := "file response 1 MB" },
      { path := "file-response-5M", name := "file response 5 MB" }] },
  { name := "params",
    endpoints := [
      { path := "no-params", name := "no params" },
      { path := "path-params/42", name := "path params" },
      { path := "query-param?first=42", name := "query params" },
      { path := "mixed-params/42?first=21", name := "mixed params" }] },
  { name := "dynamic-response",
    endpoints := [
      { path := "response-headers", name := "response headers" },
      { path := "response-cookies", name := "response cookies" }] },
  { name := "dependency-injection",
    frameworks := ["starlite", "fastapi", "sanic", "blacksheep"],
    endpoints := [
      { path := "dependencies-sync", name := "dependencies sync" },
      { path := "dependencies-async", name := "dependencies async",
        exclude := ["sanic", "blacksheep"] },
      { path := "dependencies-mixed", name := "dependencies mixed",
        exclude := ["sanic", "blacksheep"] }] },
  { name := "serialization",
    frameworks := ["starlite", "fastapi"],
    endpoints := [
      { path := "serialize-pydantic-50", name := "serialize pydantic, 50 objects" },
      { path := "serialize-pydantic-100", name := "serialize pydantic, 100 objects" },
      { path := "serialize-pydantic-500", name := "serialize pydantic, 500 objects" },
      { path := "serialize-dataclasses-50", name := "serialize dataclasses, 50 objects" },
      { path := "serialize-dataclasses-100", name := "serialize dataclasses, 100 objects" },
      { path := "serialize-dataclasses-500", name := "serialize dataclasses, 500 objects" }] }]

/-- `TestSpec` record (fields used by `make_spec`, spec.py lines 144-157). -/
structure TestSpec where
  path : String
  endpoint_mode : String
  benchmark_mode : String
  category : String
  name : String
  headers : List (String × String)
  warmup_time : Option Int
  time_limit : Option Int
  request_limit : Option Int
  rate_limit : Option Int
  slug_name : String
  is_supported : Bool
deriving Repr, DecidableEq

/-- `FrameworkSpec` record (spec.py lines 163-170): framework name, optional
requested version, adapter file path, and the generated test list. -/
structure FrameworkSpec where
  name : String
  version : Option String
  path : String
  tests : List TestSpec
deriving Repr, DecidableEq

/-- One entry of the `frameworks` directory listing, as `Path.iterdir`
yields it: a file name together with whether it is a regular file. -/
structure DirEntry where
  name : String
  isFile : Bool
deriving Repr, DecidableEq

/-- Python truthiness-based `x or d` on `int | None`: `None` and `0` are
falsy and select the default `d` (spec.py lines 152-154). -/
def pyOr (x : Option Int) (d : Int) : Int :=
  match x with
  | none => d
  | some v => if v = 0 then d else v

/-- Split a character list at the first occurrence of `c`: `none` when `c`
does not occur, otherwise the parts strictly before and strictly after the
first occurrence. -/
def splitAtFirst (c : Char) : List Char → Option (List Char × List Char)
  | [] => none
  | a :: rest =>
    if a = c then some ([], rest)
    else
      match splitAtFirst c rest with
      | none => none
      | some (l, r) => some (a :: l, r)

/-- `framework.split("@", 1)` followed by the destructuring on spec.py lines
133-134: name before the first `@`, version after it (`none` when no `@`). -/
def parseFramework (s : String) : String × Option String :=
  match splitAtFirst '@' s.data with
  | none => (s, none)
  | some (l, r) => (⟨l⟩, some ⟨r⟩)

/-- `endpoint.path.split('?')[0]` (spec.py line 155): the prefix of the
string strictly before the first `?`, or the whole string when `?` is
absent. -/
def beforeChar (c : Char) : List Char → List Char
  | [] => []
  | a :: rest => if a = c then [] else a :: beforeChar c rest

/-- String wrapper for `beforeChar`: strip everything from the first `?` on. -/
def stripQuery (s : String) : String := ⟨beforeChar '?' s.data⟩

/-- Remove `pre` from the front of a character list, or `none` when it is
not a prefix. -/
def dropPrefixCl : List Char → List Char → Option (List Char)
  | [], l => some l
  | _ :: _, [] => none
  | p :: ps, a :: rest => if a = p then dropPrefixCl ps rest else none

/-- `path.name.endswith("_app.py")` plus `removesuffix("_app.py")` (spec.py
lines 138-139), fused: the framework name when the file name carries the
suffix, `none` otherwise. -/
def adapterName (fname : String) : Option String :=
  match dropPrefixCl "_app.py".data.reverse fname.data.reverse with
  | none => none
  | some r => some ⟨r.reverse⟩

/-- The per-name version list of `requested_frameworks` (spec.py lines
131-135): versions of all requested strings parsing to `name`, preserving
request order and duplicates. -/
def versionsOf (frameworks : List String) (name : String) : List (Option String) :=
  frameworks.filterMap fun f =>
    let p := parseFramework f
    if p.1 = name then some p.2 else none

/-- The body of the list comprehension on spec.py lines 144-157: one
`TestSpec` for a given framework name, benchmark mode, endpoint mode,
category and endpoint, with the overrides in scope. -/
def buildTestSpec (warmup_time time_limit request_limit rate_limit : Option Int)
    (framework_name benchmark_mode endpoint_mode : String)
    (category : TestCategory) (endpoint : Endpoint) : TestSpec :=
  { path := "/" ++ endpoint_mode ++ "-" ++ endpoint.path
    endpoint_mode := endpoint_mode
    benchmark_mode := benchmark_mode
    category := category.name
    name := endpoint.name
    headers := endpoint.headers
    warmup_time := warmup_time
    time_limit := if benchmark_mode = "rps" then some (pyOr time_limit 15) else none
    request_limit := if benchmark_mode = "latency" then some (pyOr request_limit 1000) else none
    rate_limit := if benchmark_mode = "latency" then some (pyOr rate_limit 20) else none
    slug_name := endpoint_mode ++ "-" ++ stripQuery endpoint.path
    is_supported := category.frameworks.contains framework_name
      && !(endpoint.exclude.contains framework_name) }

/-- The `test_specs` list comprehension of spec.py lines 143-162: the full
cross product with `benchmark_mode` outermost, then `endpoint_mode`, then the
selected categories, then each category's endpoints. -/
def test_specs (warmup_time time_limit request_limit rate_limit : Option Int)
    (benchmark_modes endpoint_modes : List String)
    (selected_categories : List TestCategory) (framework_name : String) :
    List TestSpec :=
  benchmark_modes.flatMap fun benchmark_mode =>
    endpoint_modes.flatMap fun endpoint_mode =>
      selected_categories.flatMap fun category =>
        category.endpoints.map fun endpoint =>
          buildTestSpec warmup_time time_limit request_limit rate_limit
            framework_name benchmark_mode endpoint_mode category endpoint

/-- `make_spec` (spec.py lines 110-172). The tuple arguments become lists
(single-value normalization happens before the call); the directory listing
of `frameworks/` is the explicit `dirListing` argument, in iteration order. -/
def make_spec (frameworks : List String)
    (endpoint_modes : List String) (categories : List String)
    (warmup_time time_limit request_limit rate_limit : Option Int)
    (benchmark_modes : List String) (dirListing : List DirEntry) :
    List FrameworkSpec :=
  let selected_categories := TEST_CATEGORIES.filter fun c => categories.contains c.name
  dirListing.flatMap fun entry =>
    match adapterName entry.name with
    | none => []
    | some framework_name =>
      if entry.isFile then
        if versionsOf frameworks framework_name = [] then []
        else
          (versionsOf frameworks framework_name).map fun requested_version =>
            { name := framework_name
              version := requested_version
              path := entry.name
              tests := test_specs warmup_time time_limit request_limit rate_limit
                benchmark_modes endpoint_modes selected_categories framework_name }
      else []

/-- Spec-side definition, written from the specification's wording of the
cross-product order (spec.md §4.1 step 5): "benchmark_mode outermost, then
endpoint_mode, then category, then endpoint", with categories "whose name
appears in the requested `categories` set, preserving catalog order (not
requested order)" and endpoints "in their category's declared order". -/
def specCrossProduct (warmup_time time_limit request_limit rate_limit : Option Int)
    (benchmark_modes endpoint_modes categories : List String)
    (framework_name : String) : List TestSpec :=
  benchmark_modes.flatMap fun benchmark_mode =>
    endpoint_modes.flatMap fun endpoint_mode =>
      (TEST_CATEGORIES.filter fun c => categories.contains c.name).flatMap fun category =>
        category.endpoints.map fun endpoint =>
          buildTestSpec warmup_time time_limit request_limit rate_limit
            framework_name benchmark_mode endpoint_mode category endpoint

/-- Spec-side definition, written from the specification's wording of the
output order (spec.md §4.1 step 6): FrameworkSpecs "in the order framework
adapters were discovered (directory iteration order), and within a framework,
in the order framework strings were originally requested". It lists the
(name, version, adapter path) triples in exactly that order. -/
def specDiscoveryOrder (frameworks : List String) (dirListing : List DirEntry) :
    List (String × Option String × String) :=
  dirListing.flatMap fun entry =>
    if entry.isFile then
      match adapterName entry.name with
      | none => []
      | some framework_name =>
        (versionsOf frameworks framework_name).map fun v =>
          (framework_name, v, entry.name)
    else []

/-- Field-by-field structural equality of two `TestSpec`s. -/
def testSpecEqv (a b : TestSpec) : Bool :=
  a.path == b.path && a.endpoint_mode == b.endpoint_mode &&
  a.benchmark_mode == b.benchmark_mode && a.category == b.category &&
  a.name == b.name && a.headers == b.headers &&
  a.warmup_time == b.warmup_time && a.time_limit == b.time_limit &&
  a.request_limit == b.request_limit && a.rate_limit == b.rate_limit &&
  a.slug_name == b.slug_name && a.is_supported == b.is_supported

/-- Structural equality of two `FrameworkSpec`s: equal scalar fields, equal
test-list length, and field-by-field equal `TestSpec`s pairwise in order. -/
def frameworkSpecEqv (a b : FrameworkSpec) : Bool :=
  a.name == b.name && a.version == b.version && a.path == b.path &&
  a.tests.length == b.tests.length &&
  (List.zipWith testSpecEqv a.tests b.tests).all id

/-- Structural equality of two `make_spec` outputs: same length, same order,
structurally equal `FrameworkSpec`s pairwise. -/
def outputEqv (l1 l2 : List FrameworkSpec) : Bool :=
  l1.length == l2.length && (List.zipWith frameworkSpecEqv l1 l2).all id

/-! ### Helper lemmas about the character-level operations -/

theorem beforeChar_append_of_not_mem (c : Char) (l1 l2 : List Char) (h : c ∉ l1) :
    beforeChar c (l1 ++ l2) = l1 ++ beforeChar c l2 := by
  induction l1 with
  | nil => simp [beforeChar]
  | cons a rest ih =>
    simp only [List.mem_cons, not_or] at h
    simp [beforeChar, Ne.symm h.1, ih h.2]

theorem splitAtFirst_append_cons (c : Char) (l1 l2 : List Char) (h : c ∉ l1) :
    splitAtFirst c (l1 ++ c :: l2) = some (l1, l2) := by
  induction l1 with
  | nil => simp [splitAtFirst]
  | cons a rest ih =>
    simp only [List.mem_cons, not_or] at h
    simp [splitAtFirst, Ne.symm h.1, ih h.2]

theorem splitAtFirst_eq_none (c : Char) (l : List Char) (h : c ∉ l) :
    splitAtFirst c l = none := by
  induction l with
  | nil => simp [splitAtFirst]
  | cons a rest ih =>
    simp only [List.mem_cons, not_or] at h
    simp [splitAtFirst, Ne.symm h.1, ih h.2]

theorem dropPrefixCl_append (p r : List Char) : dropPrefixCl p (p ++ r) = some r := by
  induction p with
  | nil => simp [dropPrefixCl]
  | cons a rest ih => simp [dropPrefixCl, ih]

theorem string_mk_data (s : String) : String.mk s.data = s := rfl

theorem adapterName_append (n : String) : adapterName (n ++ "_app.py") = some n := by
  have hdata : (n ++ "_app.py").data = n.data ++ "_app.py".data := String.data_append ..
  rw [adapterName, hdata, List.reverse_append, dropPrefixCl_append]
  simp [string_mk_data]

theorem parseFramework_no_at (s : String) (h : '@' ∉ s.data) :
    parseFramework s = (s, none) := by
  rw [parseFramework, splitAtFirst_eq_none '@' s.data h]

theorem parseFramework_at (pre post : String) (h : '@' ∉ pre.data) :
    parseFramework (pre ++ "@" ++ post) = (pre, some post) := by
  have hdata : (pre ++ "@" ++ post).data = pre.data ++ '@' :: post.data := by
    rw [String.data_append, String.data_append,
      show ("@" : String).data = ['@'] from rfl]
    simp
  rw [parseFramework, hdata, splitAtFirst_append_cons '@' _ _ h]

/-! ### Membership characterizations of the generated lists -/

theorem mem_test_specs {wt tl rql ratl : Option Int} {bms ems : List String}
    {sel : List TestCategory} {fname : String} {ts : TestSpec} :
    ts ∈ test_specs wt tl rql ratl bms ems sel fname ↔
      ∃ bm ∈ bms, ∃ em ∈ ems, ∃ cat ∈ sel, ∃ ep ∈ cat.endpoints,
        ts = buildTestSpec wt tl rql ratl fname bm em cat ep := by
  simp [test_specs, List.mem_flatMap, List.mem_map, eq_comm]

theorem mem_make_spec {fws ems cats : List String} {wt tl rql ratl : Option Int}
    {bms : List String} {dir : List DirEntry} {fs : FrameworkSpec} :
    fs ∈ make_spec fws ems cats wt tl rql ratl bms dir ↔
      ∃ entry ∈ dir, ∃ fname, adapterName entry.name = some fname ∧
        entry.isFile = true ∧
        ∃ v ∈ versionsOf fws fname,
          fs = { name := fname, version := v, path := entry.name,
                 tests := test_specs wt tl rql ratl bms ems
                   (TEST_CATEGORIES.filter fun c => cats.contains c.name) fname } := by
  rw [make_spec]
  simp only [List.mem_flatMap]
  constructor
  · rintro ⟨entry, hentry, hfs⟩
    refine ⟨entry, hentry, ?_⟩
    rcases hadapter : adapterName entry.name with _ | fname
    · rw [hadapter] at hfs; simp at hfs
    · rw [hadapter] at hfs
      rcases hfile : entry.isFile with _ | _
      · rw [hfile] at hfs; simp at hfs
      · rw [hfile] at hfs
        simp only [if_true] at hfs
        by_cases hv : versionsOf fws fname = []
        · rw [hv] at hfs; simp [hv] at hfs
        · rw [if_neg hv] at hfs
          simp only [List.mem_map] at hfs
          obtain ⟨v, hv2, hfs⟩ := hfs
          exact ⟨fname, rfl, rfl, v, hv2, hfs.symm⟩
  · rintro ⟨entry, hentry, fname, hadapter, hfile, v, hv, hfs⟩
    refine ⟨entry, hentry, ?_⟩
    rw [hadapter, hfile]
    simp only [if_true]
    rw [if_neg (by intro hnil; rw [hnil] at hv; simp at hv)]
    simp only [List.mem_map]
    exact ⟨v, hv, hfs.symm⟩

/-! ### Claim theorems -/

/-- C1: every TestSpec produced by `make_spec` has `is_supported = true` iff
the owning framework's name is in the TestSpec's category's framework set and
is not in that endpoint's exclusion list; concretely, for category
`dependency-injection` and endpoint `dependencies-async`, framework `sanic`
gets `is_supported = false` while `starlite` gets `is_supported = true`. -/
theorem C1_is_supported_invariant
    (fws ems cats : List String) (wt tl rql ratl : Option Int) (bms : List String)
    (dir : List DirEntry) (fs : FrameworkSpec) (ts : TestSpec)
    (hfs : fs ∈ make_spec fws ems cats wt tl rql ratl bms dir)
    (hts : ts ∈ fs.tests) :
    (∃ cat ∈ TEST_CATEGORIES, ∃ ep ∈ cat.endpoints,
      ts.category = cat.name ∧ ts.name = ep.name ∧
      (ts.is_supported = true ↔ fs.name ∈ cat.frameworks ∧ fs.name ∉ ep.exclude)) ∧
    ((make_spec ["sanic", "starlite"] ["sync"] ["dependency-injection"]
        none none none none ["rps"]
        [⟨"sanic_app.py", true⟩, ⟨"starlite_app.py", true⟩]).map
      (fun f => (f.name, f.tests.map fun t => (t.name, t.is_supported)))) =
      [("sanic", [("dependencies sync", true), ("dependencies async", false),
        ("dependencies mixed", false)]),
       ("starlite", [("dependencies sync", true), ("dependencies async", true),
        ("dependencies mixed", true)])] := by
  constructor
  · obtain ⟨entry, -, fname, -, -, v, -, hfseq⟩ := mem_make_spec.mp hfs
    rw [hfseq] at hts
    simp only at hts
    obtain ⟨bm, -, em, -, cat, hcat, ep, hep, htseq⟩ := mem_test_specs.mp hts
    refine ⟨cat, (List.mem_filter.mp hcat).1, ep, hep, ?_, ?_, ?_⟩
    · rw [htseq]; rfl
    · rw [htseq]; rfl
    · rw [htseq, hfseq]
      simp [buildTestSpec]
  · rfl

/-- Witness for C1: instantiated at framework `sanic`, the one-adapter
directory listing, and the first produced TestSpec. -/
theorem C1_is_supported_invariant_witness :
    ((make_spec ["sanic", "starlite"] ["sync"] ["dependency-injection"]
        none none none none ["rps"]
        [⟨"sanic_app.py", true⟩, ⟨"starlite_app.py", true⟩]).map
      (fun f => (f.name, f.tests.map fun t => (t.name, t.is_supported)))) =
      [("sanic", [("dependencies sync", true), ("dependencies async", false),
        ("dependencies mixed", false)]),
       ("starlite", [("dependencies sync", true), ("dependencies async", true),
        ("dependencies mixed", true)])] :=
  (C1_is_supported_invariant ["sanic"] ["sync"] ["dependency-injection"]
    none none none none ["rps"] [⟨"sanic_app.py", true⟩]
    ((make_spec ["sanic"] ["sync"] ["dependency-injection"] none none none none ["rps"]
      [⟨"sanic_app.py", true⟩]).get ⟨0, by decide⟩)
    (((make_spec ["sanic"] ["sync"] ["dependency-injection"] none none none none ["rps"]
      [⟨"sanic_app.py", true⟩]).get ⟨0, by decide⟩).tests.get ⟨0, by decide⟩)
    (List.get_mem _ _ _) (List.get_mem _ _ _)).2

/-- C2 counterexample: with an explicit `time_limit` override of 10 and
`benchmark_mode = "latency"`, the produced TestSpecs do NOT carry
`time_limit = some 10` (the code discards the override and stores `none`
whenever the mode is not `"rps"`), refuting the claim that the explicit
override always wins. -/
theorem C2_limit_defaults_counterexample :
    ¬ (∀ fs ∈ make_spec ["starlite"] ["sync"] ["dynamic-response"] none (some 10) none none
        ["latency"] [⟨"starlite_app.py", true⟩], ∀ ts ∈ fs.tests, ts.time_limit = some 10) := by
  decide

/-- C2 amended: `time_limit` is populated only when the TestSpec's
`benchmark_mode` is `"rps"` — there it is the override when given and
nonzero, else 15 — and is unset otherwise even when an override was given;
symmetrically `request_limit` (default 1000) and `rate_limit` (default 20)
are populated only when `benchmark_mode` is `"latency"` and are unset
otherwise. -/
theorem C2_limit_defaults_amended
    (fws ems cats : List String) (wt tl rql ratl : Option Int) (bms : List String)
    (dir : List DirEntry) (fs : FrameworkSpec) (ts : TestSpec)
    (hfs : fs ∈ make_spec fws ems cats wt tl rql ratl bms dir)
    (hts : ts ∈ fs.tests) :
    ts.time_limit = (if ts.benchmark_mode = "rps" then some (pyOr tl 15) else none) ∧
    ts.request_limit = (if ts.benchmark_mode = "latency" then some (pyOr rql 1000) else none) ∧
    ts.rate_limit = (if ts.benchmark_mode = "latency" then some (pyOr ratl 20) else none) := by
  obtain ⟨entry, -, fname, -, -, v, -, hfseq⟩ := mem_make_spec.mp hfs
  rw [hfseq] at hts
  simp only at hts
  obtain ⟨bm, -, em, -, cat, hcat, ep, hep, htseq⟩ := mem_test_specs.mp hts
  rw [htseq]
  exact ⟨rfl, rfl, rfl⟩

/-- Witness for the amended C2: instantiated at the latency run with the
`time_limit` override of 10 and its first produced TestSpec. -/
theorem C2_limit_defaults_amended_witness :
    (((make_spec ["starlite"] ["sync"] ["dynamic-response"] none (some 10) none none
        ["latency"] [⟨"starlite_app.py", true⟩]).get ⟨0, by decide⟩).tests.get
        ⟨0, by decide⟩).time_limit =
      (if (((make_spec ["starlite"] ["sync"] ["dynamic-response"] none (some 10) none none
        ["latency"] [⟨"starlite_app.py", true⟩]).get ⟨0, by decide⟩).tests.get
        ⟨0, by decide⟩).benchmark_mode = "rps" then some (pyOr (some 10) 15) else none) :=
  (C2_limit_defaults_amended ["starlite"] ["sync"] ["dynamic-response"]
    none (some 10) none none ["latency"] [⟨"starlite_app.py", true⟩]
    ((make_spec ["starlite"] ["sync"] ["dynamic-response"] none (some 10) none none
      ["latency"] [⟨"starlite_app.py", true⟩]).get ⟨0, by decide⟩)
    (((make_spec ["starlite"] ["sync"] ["dynamic-response"] none (some 10) none none
      ["latency"] [⟨"starlite_app.py", true⟩]).get ⟨0, by decide⟩).tests.get ⟨0, by decide⟩)
    (List.get_mem _ _ _) (List.get_mem _ _ _)).1

/-- C3: every produced TestSpec has `path = "/" + endpoint_mode + "-" +
endpoint.path` and `slug_name = endpoint_mode + "-" + endpoint.path` with
everything from the first `?` on removed; when the endpoint mode itself
contains no `?`, the slug equals the path with the leading `/` dropped and
the query suffix stripped; concretely, endpoint path `query-param?first=42`
with mode `sync` gives path `/sync-query-param?first=42` and slug
`sync-query-param`. -/
theorem C3_path_and_slug
    (fws ems cats : List String) (wt tl rql ratl : Option Int) (bms : List String)
    (dir : List DirEntry) (fs : FrameworkSpec) (ts : TestSpec)
    (hfs : fs ∈ make_spec fws ems cats wt tl rql ratl bms dir)
    (hts : ts ∈ fs.tests) :
    (∃ em ∈ ems, ∃ cat ∈ TEST_CATEGORIES, ∃ ep ∈ cat.endpoints,
      ts.endpoint_mode = em ∧
      ts.path = "/" ++ em ++ "-" ++ ep.path ∧
      ts.slug_name = em ++ "-" ++ stripQuery ep.path ∧
      ('?' ∉ em.data → ts.slug_name = stripQuery ⟨ts.path.data.drop 1⟩)) ∧
    ((make_spec ["starlite"] ["sync"] ["params"] none none none none ["rps"]
       [⟨"starlite_app.py", true⟩]).map
      (fun f => f.tests.map fun t => (t.path, t.slug_name))) =
      [[("/sync-no-params", "sync-no-params"),
        ("/sync-path-params/42", "sync-path-params/42"),
        ("/sync-query-param?first=42", "sync-query-param"),
        ("/sync-mixed-params/42?first=21", "sync-mixed-params/42")]] := by
  constructor
  · obtain ⟨entry, -, fname, -, -, v, -, hfseq⟩ := mem_make_spec.mp hfs
    rw [hfseq] at hts
    simp only at hts
    obtain ⟨bm, -, em, hem, cat, hcat, ep, hep, htseq⟩ := mem_test_specs.mp hts
    refine ⟨em, hem, cat, (List.mem_filter.mp hcat).1, ep, hep, ?_, ?_, ?_, ?_⟩
    · rw [htseq]; rfl
    · rw [htseq]; rfl
    · rw [htseq]; rfl
    · intro hq
      rw [htseq]
      show em ++ "-" ++ stripQuery ep.path =
        stripQuery ⟨(("/" ++ em ++ "-" ++ ep.path).data.drop 1)⟩
      have h1 : ("/" ++ em ++ "-" ++ ep.path).data =
          '/' :: (em.data ++ '-' :: ep.path.data) := by
        simp [String.data_append, show ("/" : String).data = ['/'] from rfl,
          show ("-" : String).data = ['-'] from rfl]
      rw [h1]
      simp only [List.drop_succ_cons, List.drop_zero]
      have h2 : stripQuery ⟨em.data ++ '-' :: ep.path.data⟩ =
          ⟨em.data ++ '-' :: beforeChar '?' ep.path.data⟩ := by
        rw [stripQuery]
        rw [show (String.mk (em.data ++ '-' :: ep.path.data)).data
          = em.data ++ '-' :: ep.path.data from rfl]
        rw [beforeChar_append_of_not_mem _ _ _ hq]
        simp [beforeChar]
      rw [h2]
      have h3 : (em ++ "-" ++ stripQuery ep.path).data =
          em.data ++ '-' :: beforeChar '?' ep.path.data := by
        simp [String.data_append, show ("-" : String).data = ['-'] from rfl, stripQuery]
      exact congrArg String.mk h3 ▸ (string_mk_data (em ++ "-" ++ stripQuery ep.path)).symm ▸ rfl
  · rfl

/-- Witness for C3: the concrete query-param instance, obtained by applying
the theorem at the `params` category run. -/
theorem C3_path_and_slug_witness :
    ((make_spec ["starlite"] ["sync"] ["params"] none none none none ["rps"]
       [⟨"starlite_app.py", true⟩]).map
      (fun f => f.tests.map fun t => (t.path, t.slug_name))) =
      [[("/sync-no-params", "sync-no-params"),
        ("/sync-path-params/42", "sync-path-params/42"),
        ("/sync-query-param?first=42", "sync-query-param"),
        ("/sync-mixed-params/42?first=21", "sync-mixed-params/42")]] :=
  (C3_path_and_slug ["starlite"] ["sync"] ["params"] none none none none ["rps"]
    [⟨"starlite_app.py", true⟩]
    ((make_spec ["starlite"] ["sync"] ["params"] none none none none ["rps"]
      [⟨"starlite_app.py", true⟩]).get ⟨0, by decide⟩)
    (((make_spec ["starlite"] ["sync"] ["params"] none none none none ["rps"]
      [⟨"starlite_app.py", true⟩]).get ⟨0, by decide⟩).tests.get ⟨0, by decide⟩)
    (List.get_mem _ _ _) (List.get_mem _ _ _)).2

/-- C4: each produced FrameworkSpec's TestSpec list is exactly the
cross product described by the spec — `benchmark_mode` outermost, then
`endpoint_mode`, then categories in static catalog order, then each
category's endpoints in declared order (`specCrossProduct`) — and the
result is invariant under reordering (or duplicating) of the requested
categories, which only matter through membership. -/
theorem C4_cross_product_order
    (fws ems cats : List String) (wt tl rql ratl : Option Int) (bms : List String)
    (dir : List DirEntry) (fs : FrameworkSpec) (cats2 : List String)
    (hfs : fs ∈ make_spec fws ems cats wt tl rql ratl bms dir)
    (h1 : ∀ x ∈ cats, x ∈ cats2) (h2 : ∀ x ∈ cats2, x ∈ cats) :
    fs.tests = specCrossProduct wt tl rql ratl bms ems cats fs.name ∧
    make_spec fws ems cats wt tl rql ratl bms dir =
      make_spec fws ems cats2 wt tl rql ratl bms dir := by
  have hfilter : (TEST_CATEGORIES.filter fun c => cats.contains c.name) =
      (TEST_CATEGORIES.filter fun c => cats2.contains c.name) := by
    apply List.filter_congr
    intro c _
    have e1 : cats.contains c.name = true ↔ c.name ∈ cats := List.elem_iff
    have e2 : cats2.contains c.name = true ↔ c.name ∈ cats2 := List.elem_iff
    rw [Bool.eq_iff_iff, e1, e2]
    exact ⟨fun h => h1 _ h, fun h => h2 _ h⟩
  constructor
  · obtain ⟨entry, -, fname, -, -, v, -, hfseq⟩ := mem_make_spec.mp hfs
    rw [hfseq]
    rfl
  · rw [make_spec, make_spec]
    simp only [hfilter]

/-- Witness for C4: requesting categories `["json", "plaintext"]` (reverse
of catalog order) gives the same output as `["plaintext", "json"]`, and the
single produced FrameworkSpec's tests equal the spec-side cross product. -/
theorem C4_cross_product_order_witness :
    ((make_spec ["starlite"] ["sync"] ["json", "plaintext"] none none none none ["rps"]
        [⟨"starlite_app.py", true⟩]).get ⟨0, by decide⟩).tests =
      specCrossProduct none none none none ["rps"] ["sync"] ["json", "plaintext"]
        ((make_spec ["starlite"] ["sync"] ["json", "plaintext"] none none none none ["rps"]
          [⟨"starlite_app.py", true⟩]).get ⟨0, by decide⟩).name ∧
    make_spec ["starlite"] ["sync"] ["json", "plaintext"] none none none none ["rps"]
        [⟨"starlite_app.py", true⟩] =
      make_spec ["starlite"] ["sync"] ["plaintext", "json"] none none none none ["rps"]
        [⟨"starlite_app.py", true⟩] :=
  C4_cross_product_order ["starlite"] ["sync"] ["json", "plaintext"]
    none none none none ["rps"] [⟨"starlite_app.py", true⟩]
    ((make_spec ["starlite"] ["sync"] ["json", "plaintext"] none none none none ["rps"]
      [⟨"starlite_app.py", true⟩]).get ⟨0, by decide⟩)
    ["plaintext", "json"] (List.get_mem _ _ _) (by decide) (by decide)

/-- C5: the returned FrameworkSpecs appear in directory-iteration order of
the discovered adapter files, and within one discovered framework name, in
the order the corresponding framework strings were originally requested —
the (name, version, path) triples of the output coincide with the
spec-side `specDiscoveryOrder` listing. -/
theorem C5_discovery_order
    (fws ems cats : List String) (wt tl rql ratl : Option Int) (bms : List String)
    (dir : List DirEntry) :
    (make_spec fws ems cats wt tl rql ratl bms dir).map
      (fun fs => (fs.name, fs.version, fs.path)) = specDiscoveryOrder fws dir := by
  rw [make_spec, specDiscoveryOrder, List.map_flatMap]
  apply List.flatMap_congr
  intro entry _
  rcases hadapter : adapterName entry.name with _ | fname
  · rcases entry.isFile with _ | _ <;> simp
  · rcases hfile : entry.isFile with _ | _
    · simp [hfile]
    · simp only [hfile, if_true]
      by_cases hv : versionsOf fws fname = []
      · simp [hv]
      · rw [if_neg hv, List.map_map]
        rfl

/-- `test_specs` over an empty category selection is empty. -/
theorem test_specs_nil (wt tl rql ratl : Option Int) (bms ems : List String)
    (fname : String) : test_specs wt tl rql ratl bms ems [] fname = [] := by
  simp [test_specs]

/-- C6: requesting two framework strings that share a name but carry
different versions, with the matching adapter file present, yields exactly
one FrameworkSpec per requested string — both with the shared name and the
respective versions, in request order — and the two FrameworkSpecs carry an
identical TestSpec list. -/
theorem C6_versioned_requests (n v1 v2 : String) (hn : '@' ∉ n.data)
    (ems cats : List String) (wt tl rql ratl : Option Int) (bms : List String) :
    ((make_spec [n ++ "@" ++ v1, n ++ "@" ++ v2] ems cats wt tl rql ratl bms
        [⟨n ++ "_app.py", true⟩]).map fun fs => (fs.name, fs.version)) =
      [(n, some v1), (n, some v2)] ∧
    ∃ t, ((make_spec [n ++ "@" ++ v1, n ++ "@" ++ v2] ems cats wt tl rql ratl bms
        [⟨n ++ "_app.py", true⟩]).map fun fs => fs.tests) = [t, t] := by
  have hv : versionsOf [n ++ "@" ++ v1, n ++ "@" ++ v2] n = [some v1, some v2] := by
    rw [versionsOf]
    simp [parseFramework_at _ _ hn]
  constructor
  · simp [make_spec, adapterName_append, hv]
  · refine ⟨test_specs wt tl rql ratl bms ems
      (TEST_CATEGORIES.filter fun c => cats.contains c.name) n, ?_⟩
    simp [make_spec, adapterName_append, hv]

/-- Witness for C6: `["sanic@23.3", "sanic@22.12"]` against the adapter
file `sanic_app.py` gives two FrameworkSpecs named `sanic` with the two
versions and identical tests. -/
theorem C6_versioned_requests_witness :
    ((make_spec ["sanic" ++ "@" ++ "23.3", "sanic" ++ "@" ++ "22.12"] ["sync"] ["json"]
        none none none none ["rps"] [⟨"sanic" ++ "_app.py", true⟩]).map
      fun fs => (fs.name, fs.version)) =
      [("sanic", some "23.3"), ("sanic", some "22.12")] ∧
    ∃ t, ((make_spec ["sanic" ++ "@" ++ "23.3", "sanic" ++ "@" ++ "22.12"] ["sync"] ["json"]
        none none none none ["rps"] [⟨"sanic" ++ "_app.py", true⟩]).map
      fun fs => fs.tests) = [t, t] :=
  C6_versioned_requests "sanic" "23.3" "22.12" (by decide)
    ["sync"] ["json"] none none none none ["rps"]

/-- C7: a requested framework string is split only on its first `@` — the
prefix is the name and everything after the first `@` (further `@`s
included) is the version; a string without `@` gives itself as the name and
no version; and version extraction distributes over request concatenation,
preserving duplicates per name in request order. -/
theorem C7_split_on_first_at (pre post s : String) (fws1 fws2 : List String)
    (name : String) (hpre : '@' ∉ pre.data) (hs : '@' ∉ s.data) :
    parseFramework (pre ++ "@" ++ post) = (pre, some post) ∧
    parseFramework s = (s, none) ∧
    versionsOf (fws1 ++ fws2) name = versionsOf fws1 name ++ versionsOf fws2 name := by
  refine ⟨parseFramework_at pre post hpre, parseFramework_no_at s hs, ?_⟩
  rw [versionsOf, versionsOf, versionsOf, List.filterMap_append]

/-- Witness for C7: `sanic@23.3@x` splits into name `sanic` and version
`23.3@x`; `starlite` has no version; duplicate `sanic` requests survive
concatenation in order. -/
theorem C7_split_on_first_at_witness :
    parseFramework ("sanic" ++ "@" ++ "23.3@x") = ("sanic", some "23.3@x") ∧
    parseFramework "starlite" = ("starlite", none) ∧
    versionsOf (["sanic@23.3"] ++ ["other", "sanic@22.12"]) "sanic" =
      versionsOf ["sanic@23.3"] "sanic" ++ versionsOf ["other", "sanic@22.12"] "sanic" :=
  C7_split_on_first_at "sanic" "23.3@x" "starlite" ["sanic@23.3"]
    ["other", "sanic@22.12"] "sanic" (by decide) (by decide)

/-- C8: `make_spec` degrades silently instead of failing — when no
discovered adapter matches any requested framework the result is the empty
list; a requested category name matching no catalog entry contributes no
TestSpecs (if nothing matches, every tests list is empty, and no produced
TestSpec ever carries an unknown category name); and a requested framework
name with no matching adapter file contributes no FrameworkSpec. -/
theorem C8_silent_skip
    (fws ems cats : List String) (wt tl rql ratl : Option Int) (bms : List String)
    (dir : List DirEntry) :
    ((∀ entry ∈ dir, ∀ fname, adapterName entry.name = some fname →
        entry.isFile = true → versionsOf fws fname = []) →
      make_spec fws ems cats wt tl rql ratl bms dir = []) ∧
    ((∀ x ∈ cats, ∀ c ∈ TEST_CATEGORIES, c.name ≠ x) →
      ∀ fs ∈ make_spec fws ems cats wt tl rql ratl bms dir, fs.tests = []) ∧
    (∀ x, (∀ c ∈ TEST_CATEGORIES, c.name ≠ x) →
      ∀ fs ∈ make_spec fws ems cats wt tl rql ratl bms dir,
        ∀ ts ∈ fs.tests, ts.category ≠ x) ∧
    (∀ f ∈ fws, (∀ entry ∈ dir, entry.isFile = true →
        adapterName entry.name ≠ some (parseFramework f).1) →
      ∀ fs ∈ make_spec fws ems cats wt tl rql ratl bms dir,
        fs.name ≠ (parseFramework f).1) := by
  refine ⟨?_, ?_, ?_, ?_⟩
  · intro h
    rw [make_spec]
    apply List.flatMap_eq_nil_iff.mpr
    intro entry hentry
    rcases hadapter : adapterName entry.name with _ | fname
    · rfl
    · rcases hfile : entry.isFile with _ | _
      · simp
      · simp only [if_true]
        rw [if_pos (h entry hentry fname hadapter hfile)]
  · intro h fs hfs
    obtain ⟨entry, -, fname, -, -, v, -, hfseq⟩ := mem_make_spec.mp hfs
    rw [hfseq]
    have hfilter : (TEST_CATEGORIES.filter fun c => cats.contains c.name) = [] := by
      rw [List.filter_eq_nil_iff]
      intro c hc
      intro hcontains
      exact h c.name (List.elem_iff.mp hcontains) c hc rfl
    simp only
    rw [hfilter, test_specs_nil]
  · intro x hx fs hfs ts hts
    obtain ⟨entry, -, fname, -, -, v, -, hfseq⟩ := mem_make_spec.mp hfs
    rw [hfseq] at hts
    simp only at hts
    obtain ⟨bm, -, em, -, cat, hcat, ep, hep, htseq⟩ := mem_test_specs.mp hts
    rw [htseq]
    exact hx cat (List.mem_filter.mp hcat).1
  · intro f hf h fs hfs
    obtain ⟨entry, hentry, fname, hadapter, hfile, v, -, hfseq⟩ := mem_make_spec.mp hfs
    rw [hfseq]
    intro heq
    simp only at heq
    exact h entry hentry hfile (heq ▸ hadapter)

/-- Witness for C8: a directory with only `README.md` yields `[]`; an
unknown category `nonexistent` yields empty tests; no produced TestSpec
carries category `nonexistent`; a requested framework `missing` with no
adapter file never names a produced FrameworkSpec. -/
theorem C8_silent_skip_witness :
    make_spec ["starlite"] ["sync"] ["plaintext"] none none none none ["rps"]
      [⟨"README.md", true⟩] = [] ∧
    ((make_spec ["starlite", "missing"] ["sync"] ["nonexistent"] none none none none
      ["rps"] [⟨"starlite_app.py", true⟩]).get ⟨0, by decide⟩).tests = [] ∧
    (((make_spec ["starlite"] ["sync"] ["plaintext", "nonexistent"] none none none none
      ["rps"] [⟨"starlite_app.py", true⟩]).get ⟨0, by decide⟩).tests.get
      ⟨0, by decide⟩).category ≠ "nonexistent" ∧
    ((make_spec ["starlite", "missing"] ["sync"] ["plaintext"] none none none none
      ["rps"] [⟨"starlite_app.py", true⟩]).get ⟨0, by decide⟩).name ≠
      (parseFramework "missing").1 := by
  refine ⟨?_, ?_, ?_, ?_⟩
  · apply (C8_silent_skip ["starlite"] ["sync"] ["plaintext"] none none none none ["rps"]
      [⟨"README.md", true⟩]).1
    intro entry hentry fname hadapter hfile
    simp only [List.mem_singleton] at hentry
    subst hentry
    rw [show adapterName "README.md" = none from rfl] at hadapter
    exact Option.noConfusion hadapter
  · exact (C8_silent_skip ["starlite", "missing"] ["sync"] ["nonexistent"]
      none none none none ["rps"] [⟨"starlite_app.py", true⟩]).2.1 (by decide)
      _ (List.get_mem _ _ _)
  · exact (C8_silent_skip ["starlite"] ["sync"] ["plaintext", "nonexistent"]
      none none none none ["rps"] [⟨"starlite_app.py", true⟩]).2.2.1 "nonexistent"
      (by decide) _ (List.get_mem _ _ _) _ (List.get_mem _ _ _)
  · exact (C8_silent_skip ["starlite", "missing"] ["sync"] ["plaintext"]
      none none none none ["rps"] [⟨"starlite_app.py", true⟩]).2.2.2 "missing"
      (by decide) (by decide) _ (List.get_mem _ _ _)

/-- `testSpecEqv` is reflexive. -/
theorem testSpecEqv_refl (a : TestSpec) : testSpecEqv a a = true := by
  simp [testSpecEqv]

/-- Pairwise structural equality of a test list with itself holds. -/
theorem zipWith_testSpecEqv_refl (l : List TestSpec) :
    (List.zipWith testSpecEqv l l).all id = true := by
  induction l with
  | nil => rfl
  | cons a rest ih => simp [List.zipWith, testSpecEqv_refl, ih]

/-- `frameworkSpecEqv` is reflexive. -/
theorem frameworkSpecEqv_refl (a : FrameworkSpec) : frameworkSpecEqv a a = true := by
  simp only [frameworkSpecEqv, zipWith_testSpecEqv_refl]
  simp

/-- C9: `make_spec` is deterministic — two invocations with identical
arguments and an identical directory listing produce outputs that are
structurally identical: same length, same order, field-by-field equal
FrameworkSpecs and TestSpecs. -/
theorem C9_deterministic
    (fws ems cats : List String) (wt tl rql ratl : Option Int) (bms : List String)
    (dir : List DirEntry) :
    outputEqv (make_spec fws ems cats wt tl rql ratl bms dir)
      (make_spec fws ems cats wt tl rql ratl bms dir) = true := by
  rw [outputEqv]
  generalize make_spec fws ems cats wt tl rql ratl bms dir = l
  have h2 : (List.zipWith frameworkSpecEqv l l).all id = true := by
    induction l with
    | nil => rfl
    | cons a rest ih => simp [List.zipWith, frameworkSpecEqv_refl, ih]
  rw [h2]
  simp

/-- C10: a zero-valued explicit override is treated as absent because the
defaulting uses Python truthiness — with `time_limit = 0` an `"rps"`
TestSpec still gets 15, and with `request_limit = 0` or `rate_limit = 0` a
`"latency"` TestSpec still gets 1000 and 20 respectively. -/
theorem C10_zero_override_uses_default
    (fws ems cats : List String) (wt tl rql ratl : Option Int) (bms : List String)
    (dir : List DirEntry) (fs : FrameworkSpec) (ts : TestSpec)
    (hfs : fs ∈ make_spec fws ems cats wt tl rql ratl bms dir)
    (hts : ts ∈ fs.tests) :
    (tl = some 0 → ts.benchmark_mode = "rps" → ts.time_limit = some 15) ∧
    (rql = some 0 → ts.benchmark_mode = "latency" → ts.request_limit = some 1000) ∧
    (ratl = some 0 → ts.benchmark_mode = "latency" → ts.rate_limit = some 20) := by
  obtain ⟨entry, -, fname, -, -, v, -, hfseq⟩ := mem_make_spec.mp hfs
  rw [hfseq] at hts
  simp only at hts
  obtain ⟨bm, -, em, -, cat, hcat, ep, hep, htseq⟩ := mem_test_specs.mp hts
  rw [htseq]
  refine ⟨?_, ?_, ?_⟩
  · intro h0 hmode
    subst h0
    simp only [buildTestSpec] at hmode ⊢
    rw [if_pos hmode]
    rfl
  · intro h0 hmode
    subst h0
    simp only [buildTestSpec] at hmode ⊢
    rw [if_pos hmode]
    rfl
  · intro h0 hmode
    subst h0
    simp only [buildTestSpec] at hmode ⊢
    rw [if_pos hmode]
    rfl

/-- Witness for C10: with all three overrides set to 0 and both benchmark
modes requested, the first (rps) TestSpec gets `time_limit = 15` and the
first latency TestSpec gets `request_limit = 1000` and `rate_limit = 20`. -/
theorem C10_zero_override_uses_default_witness :
    (((make_spec ["starlite"] ["sync"] ["dynamic-response"] none (some 0) (some 0) (some 0)
        ["rps", "latency"] [⟨"starlite_app.py", true⟩]).get ⟨0, by decide⟩).tests.get
        ⟨0, by decide⟩).time_limit = some 15 ∧
    (((make_spec ["starlite"] ["sync"] ["dynamic-response"] none (some 0) (some 0) (some 0)
        ["rps", "latency"] [⟨"starlite_app.py", true⟩]).get ⟨0, by decide⟩).tests.get
        ⟨2, by decide⟩).request_limit = some 1000 ∧
    (((make_spec ["starlite"] ["sync"] ["dynamic-response"] none (some 0) (some 0) (some 0)
        ["rps", "latency"] [⟨"starlite_app.py", true⟩]).get ⟨0, by decide⟩).tests.get
        ⟨2, by decide⟩).rate_limit = some 20 :=
  ⟨(C10_zero_override_uses_default ["starlite"] ["sync"] ["dynamic-response"]
      none (some 0) (some 0) (some 0) ["rps", "latency"] [⟨"starlite_app.py", true⟩]
      _ _ (List.get_mem _ _ _) (List.get_mem _ _ _)).1 rfl (by decide),
   (C10_zero_override_uses_default ["starlite"] ["sync"] ["dynamic-response"]
      none (some 0) (some 0) (some 0) ["rps", "latency"] [⟨"starlite_app.py", true⟩]
      _ _ (List.get_mem _ _ _) (List.get_mem _ _ _)).2.1 rfl (by decide),
   (C10_zero_override_uses_default ["starlite"] ["sync"] ["dynamic-response"]
      none (some 0) (some 0) (some 0) ["rps", "latency"] [⟨"starlite_app.py", true⟩]
      _ _ (List.get_mem _ _ _) (List.get_mem _ _ _)).2.2 rfl (by decide)⟩

end AsgiBench
